import Mathlib

/-!
# Verification of `celeste_cli.c` (Flipper Zero "Celeste CLI" application)

A shallow embedding of `src/flipper/celeste_cli/celeste_cli.c`:

* the static command catalog (`commands`) and its lookup helpers
  (`count_menu_items`, `get_menu_item`);
* the HID text emitter (`send_key`, `send_char`, `send_command`), modelled as
  pure functions producing a trace of externally visible effects (USB
  configuration calls, delays, key press/release reports);
* the submenu renderer's viewport computation (`render_submenu`), modelled as
  the list of (item index, selected-marker) rows it draws;
* the UI state machine (`input_callback`, the main-loop splash tick), with a
  reachability relation from the initial state built in `celeste_cli_app`.

Machine integers: `selected_item`, loop counters and the splash timer are
`uint8_t`/`uint32_t` in C; every value they take in this program is far below
the wrap-around bound (catalog size 12, poll bound 500, splash bound 300), so
they are modelled as `Nat`.  The one place where C unsigned arithmetic could
bite (`item_count - 1` in the Down handler) is promoted to `int` in C, so a
count of `0` makes the comparison false — which `Nat` truncated subtraction
(`sel < 0 - 1 = 0`) reproduces exactly.
-/

/-- `AppState` enum of `celeste_cli.c`. -/
inductive AppState where
  | splash
  | mainMenu
  | tarotMenu
  | contentMenu
  | nsfwMenu
  | confirm
  | executing
  | customInput
deriving DecidableEq, Repr

/-- `MenuCategory` enum of `celeste_cli.c`. -/
inductive MenuCategory where
  | main
  | tarot
  | content
  | nsfw
deriving DecidableEq, Repr

/-- `CelesteCommand` struct: display name, literal command text, category. -/
structure CelesteCommand where
  name : String
  command : String
  category : MenuCategory
deriving DecidableEq, Repr

/-- The static `commands[]` array of `celeste_cli.c`, without the
`{NULL, NULL, MenuCategoryMain}` sentinel: the C iteration stops at the
sentinel (`commands[i].name != NULL`), which corresponds to the end of this
list. -/
def commands : List CelesteCommand :=
  [ -- Tarot commands
    ⟨"3-Card Tarot", "celestecli --tarot\n", MenuCategory.tarot⟩,
    ⟨"Celtic Cross", "celestecli --tarot --spread celtic\n", MenuCategory.tarot⟩,
    ⟨"Divine Reading", "celestecli --divine\n", MenuCategory.tarot⟩,
    ⟨"Divine NSFW", "celestecli --divine-nsfw\n", MenuCategory.tarot⟩,
    ⟨"Tarot Parsed", "celestecli --tarot --parsed\n", MenuCategory.tarot⟩,
    -- Content generation - Twitter
    ⟨"Twitter Short",
      "celestecli --format short --platform twitter --topic \"NIKKE\" --tone \"lewd\"\n",
      MenuCategory.content⟩,
    ⟨"Twitter Teasing",
      "celestecli --format short --platform twitter --topic \"NIKKE\" --tone \"teasing\"\n",
      MenuCategory.content⟩,
    ⟨"Twitter Chaotic",
      "celestecli --format short --platform twitter --topic \"NIKKE\" --tone \"chaotic\"\n",
      MenuCategory.content⟩,
    -- Content generation - YouTube
    ⟨"YouTube Desc",
      "celestecli --format long --platform youtube --topic \"Streaming\" --request \"include links to website, socials, products\"\n",
      MenuCategory.content⟩,
    -- NSFW commands
    ⟨"NSFW Text",
      "celestecli --nsfw --format short --platform twitter --topic \"NIKKE\" --tone \"explicit\"\n",
      MenuCategory.nsfw⟩,
    ⟨"NSFW Image",
      "celestecli --nsfw --image --request \"generate NSFW image of Celeste\"\n",
      MenuCategory.nsfw⟩,
    ⟨"List Models", "celestecli --nsfw --list-models\n", MenuCategory.nsfw⟩ ]

/-- Body of the `count_menu_items` loop, recursing over the catalog list
(the C loop walks `commands[]` until the sentinel). -/
def count_menu_items_list (category : MenuCategory) : List CelesteCommand → Nat
  | [] => 0
  | c :: rest =>
    if c.category = category then count_menu_items_list category rest + 1
    else count_menu_items_list category rest

/-- `count_menu_items` of `celeste_cli.c`: number of catalog entries (before
the sentinel) whose category field matches. -/
def count_menu_items (category : MenuCategory) : Nat :=
  count_menu_items_list category commands

/-- Body of the `get_menu_item` loop: `count` is the running counter of
matching entries seen so far; the entry whose running count equals `index`
is returned, `NULL` (here `none`) if the list is exhausted. -/
def get_menu_item_list (category : MenuCategory) (index count : Nat) :
    List CelesteCommand → Option CelesteCommand
  | [] => none
  | c :: rest =>
    if c.category = category then
      if count = index then some c
      else get_menu_item_list category index (count + 1) rest
    else get_menu_item_list category index count rest

/-- `get_menu_item` of `celeste_cli.c`: the `index`-th entry of the given
category, in catalog declaration order, or `none`. -/
def get_menu_item (category : MenuCategory) (index : Nat) : Option CelesteCommand :=
  get_menu_item_list category index 0 commands

/-- The matching-category sublist of a catalog, in declaration order. -/
def catalog_filter (category : MenuCategory) (l : List CelesteCommand) : List CelesteCommand :=
  l.filter (fun c => decide (c.category = category))

lemma count_menu_items_list_eq_filter_length (category : MenuCategory)
    (l : List CelesteCommand) :
    count_menu_items_list category l = (catalog_filter category l).length := by
  induction l with
  | nil => rfl
  | cons c rest ih =>
    by_cases h : c.category = category
    · simp [count_menu_items_list, catalog_filter, List.filter_cons, h] at ih ⊢
      omega
    · simp [count_menu_items_list, catalog_filter, List.filter_cons, h] at ih ⊢
      exact ih

lemma get_menu_item_list_eq_filter_get (category : MenuCategory)
    (l : List CelesteCommand) :
    ∀ index count, count ≤ index →
      get_menu_item_list category index count l =
        (catalog_filter category l)[index - count]? := by
  induction l with
  | nil => intro index count _; simp [get_menu_item_list, catalog_filter]
  | cons c rest ih =>
    intro index count hle
    by_cases h : c.category = category
    · by_cases he : count = index
      · subst he
        simp [get_menu_item_list, catalog_filter, List.filter_cons, h]
      · have h1 : count + 1 ≤ index := by omega
        have := ih index (count + 1) h1
        simp only [get_menu_item_list, if_pos h, if_neg he, this]
        simp only [catalog_filter, List.filter_cons, decide_eq_true_eq, if_pos h]
        have h2 : index - count = (index - (count + 1)) + 1 := by omega
        rw [h2]
        simp
    · have := ih index count hle
      simp only [get_menu_item_list, if_neg h, this]
      simp only [catalog_filter, List.filter_cons, decide_eq_true_eq, if_neg h]

lemma get_menu_item_eq_filter_get (category : MenuCategory) (index : Nat) :
    get_menu_item category index = (catalog_filter category commands)[index]? := by
  have := get_menu_item_list_eq_filter_get category commands index 0 (Nat.zero_le _)
  simpa [get_menu_item] using this

lemma get_menu_item_mem {category : MenuCategory} {index : Nat} {c : CelesteCommand}
    (h : get_menu_item category index = some c) : c ∈ commands := by
  rw [get_menu_item_eq_filter_get] at h
  have hmem : c ∈ catalog_filter category commands := List.getElem?_mem h
  exact List.mem_of_mem_filter hmem

/-- C4: `count_menu_items C` is exactly the number of catalog entries of
category `C`; `get_menu_item C i` enumerates the category-`C` entries in
declaration order (it is the `i`-th element of the declaration-order
sublist of category `C`, so no duplicates and no omissions), and signals
not-found (`none`) for every `i ≥ count_menu_items C`. -/
theorem catalog_contract (category : MenuCategory) :
    count_menu_items category = (catalog_filter category commands).length
    ∧ (∀ index : Nat, get_menu_item category index =
        (catalog_filter category commands)[index]?)
    ∧ (∀ index : Nat, count_menu_items category ≤ index →
        get_menu_item category index = none) := by
  refine ⟨count_menu_items_list_eq_filter_length category commands,
    fun index => get_menu_item_eq_filter_get category index, fun index h => ?_⟩
  rw [get_menu_item_eq_filter_get]
  apply List.getElem?_eq_none
  rw [← count_menu_items_list_eq_filter_length]
  exact h

/-- Witness for `catalog_contract` at concrete inputs: the Tarot category has
5 entries, index 5 is out of range and returns none. -/
theorem catalog_contract_witness :
    get_menu_item MenuCategory.tarot 5 = none :=
  (catalog_contract MenuCategory.tarot).2.2 5 (by decide)

/-!
## HID text emitter

`send_key`, `send_char` and `send_command` are modelled as pure functions
producing the list of externally visible effects they perform, in order:
USB configuration calls, millisecond delays, and HID key press/release
reports.  Key codes are the standard USB HID usage IDs of the Flipper SDK
constants the code names (`HID_KEYBOARD_A = 0x04`, …); only their identity
and the arithmetic `HID_KEYBOARD_A + (c - 'a')` / `HID_KEYBOARD_1 + (c - '1')`
matter here.

Host connectivity is a parameter `conn : Nat → Bool` giving the result of
the `n`-th call to `furi_hal_usb_is_connected()` during `send_command`.
-/

/-- One externally visible effect of the HID emitter.  `setUsbConfigHid`
models the call `furi_hal_usb_set_config(&usb_hid, NULL)`, which selects the
HID keyboard device class as the active USB configuration — the code issues
this same call both at entry ("Enable USB HID") and at exit ("Disable USB
HID"); it has no effect that restores a previously active configuration. -/
inductive Effect where
  | setUsbConfigHid
  | delay (ms : Nat)
  | keyPress (key : Nat)
  | keyRelease (key : Nat)
deriving DecidableEq, Repr

def HID_KEYBOARD_A : Nat := 0x04
def HID_KEYBOARD_1 : Nat := 0x1e
def HID_KEYBOARD_0 : Nat := 0x27
def HID_KEYBOARD_RETURN : Nat := 0x28
def HID_KEYBOARD_SPACEBAR : Nat := 0x2c
def HID_KEYBOARD_MINUS : Nat := 0x2d
def HID_KEYBOARD_APOSTROPHE : Nat := 0x34
def HID_KEYBOARD_LEFT_SHIFT : Nat := 0xe1

/-- `send_key` of `celeste_cli.c`: optionally press left shift, press the
key, hold 20ms, release the key, release shift, then the 10ms inter-key
delay. -/
def send_key (key : Nat) (shift : Bool) : List Effect :=
  (if shift then [Effect.keyPress HID_KEYBOARD_LEFT_SHIFT] else [])
    ++ [Effect.keyPress key, Effect.delay 20, Effect.keyRelease key]
    ++ (if shift then [Effect.keyRelease HID_KEYBOARD_LEFT_SHIFT] else [])
    ++ [Effect.delay 10]

/-- `send_char` of `celeste_cli.c`: the character-to-keystroke mapping, with
character comparisons on the ASCII code as in C.  A character matching no
branch produces no effect at all. -/
def send_char (c : Char) : List Effect :=
  if 97 ≤ c.toNat ∧ c.toNat ≤ 122 then        -- 'a' .. 'z'
    send_key (HID_KEYBOARD_A + (c.toNat - 97)) false
  else if 65 ≤ c.toNat ∧ c.toNat ≤ 90 then    -- 'A' .. 'Z'
    send_key (HID_KEYBOARD_A + (c.toNat - 65)) true
  else if c = ' ' then
    send_key HID_KEYBOARD_SPACEBAR false
  else if c = '\n' then
    send_key HID_KEYBOARD_RETURN false ++ [Effect.delay 100]
  else if c = '-' then
    send_key HID_KEYBOARD_MINUS false
  else if c = '"' then
    send_key HID_KEYBOARD_APOSTROPHE true
  else if c = '0' then
    send_key HID_KEYBOARD_0 false
  else if 49 ≤ c.toNat ∧ c.toNat ≤ 57 then    -- '1' .. '9'
    send_key (HID_KEYBOARD_1 + (c.toNat - 49)) false
  else
    []

/-- The characters `send_char` maps to a keystroke: lowercase and uppercase
letters, space, newline, hyphen, double-quote, and the digits. -/
def mappedChar (c : Char) : Prop :=
  (97 ≤ c.toNat ∧ c.toNat ≤ 122) ∨ (65 ≤ c.toNat ∧ c.toNat ≤ 90)
    ∨ c = ' ' ∨ c = '\n' ∨ c = '-' ∨ c = '"'
    ∨ c = '0' ∨ (49 ≤ c.toNat ∧ c.toNat ≤ 57)

instance (c : Char) : Decidable (mappedChar c) := by
  unfold mappedChar; infer_instance

/-- The `while(!furi_hal_usb_is_connected() && timeout < 500)` polling loop of
`send_command`.  `calls` is the index of the next `furi_hal_usb_is_connected()`
call, `fuel` is `500 - timeout`.  The loop condition evaluates the
connectivity call first, so one call is consumed even on the iteration on
which `timeout < 500` fails.  Returns (number of 10ms delays performed,
index of the next connectivity call after the loop). -/
def poll_loop (conn : Nat → Bool) : Nat → Nat → Nat × Nat
  | calls, 0 => (0, calls + 1)
  | calls, fuel + 1 =>
    if conn calls then (0, calls + 1)
    else
      let r := poll_loop conn (calls + 1) fuel
      (r.1 + 1, r.2)

/-- `send_command` of `celeste_cli.c` as an effect trace: select the HID USB
configuration, poll connectivity up to 500 times with a 10ms delay per
attempt, and — only if the post-loop connectivity check succeeds — wait the
500ms settle delay, emit every character's keystrokes, and issue the final
`furi_hal_usb_set_config(&usb_hid, NULL)` call (the "Disable USB HID" line,
which in fact selects the HID configuration again).  On timeout the function
returns directly after the polling delays, with no further effect.
`strlen`-based iteration is the traversal of the command's characters (the
catalog strings contain no NUL). -/
def send_command (conn : Nat → Bool) (command : List Char) : List Effect :=
  let r := poll_loop conn 0 500
  Effect.setUsbConfigHid ::
    (List.replicate r.1 (Effect.delay 10)
      ++ if conn r.2 then
           Effect.delay 500 :: ((command.map send_char).flatten ++ [Effect.setUsbConfigHid])
         else [])

lemma poll_loop_never (conn : Nat → Bool) (h : ∀ t, conn t = false) :
    ∀ fuel calls, poll_loop conn calls fuel = (fuel, calls + fuel + 1) := by
  intro fuel
  induction fuel with
  | zero => intro calls; simp [poll_loop]
  | succ n ih =>
    intro calls
    simp only [poll_loop, h calls, if_neg (Bool.false_ne_true), ih (calls + 1)]
    refine Prod.ext rfl ?_
    simp only
    omega

lemma poll_loop_finds (conn : Nat → Bool)
    (mono : ∀ i j, i ≤ j → conn i = true → conn j = true) :
    ∀ fuel calls, (∃ t, t ≤ fuel ∧ conn (calls + t) = true) →
      (poll_loop conn calls fuel).1 ≤ fuel ∧
        conn ((poll_loop conn calls fuel).2) = true := by
  intro fuel
  induction fuel with
  | zero =>
    intro calls ⟨t, ht, hc⟩
    have h0 : t = 0 := Nat.le_zero.mp ht
    subst h0
    simp only [poll_loop]
    exact ⟨Nat.le_refl 0, mono calls (calls + 1) (by omega) (by simpa using hc)⟩
  | succ n ih =>
    intro calls ⟨t, ht, hc⟩
    by_cases hcall : conn calls = true
    · simp only [poll_loop, if_pos hcall]
      exact ⟨Nat.zero_le _, mono calls (calls + 1) (by omega) hcall⟩
    · have hne : t ≠ 0 := by
        intro h0; subst h0; simp at hc; exact hcall hc
      have hrec : ∃ t', t' ≤ n ∧ conn (calls + 1 + t') = true :=
        ⟨t - 1, by omega, by have : calls + 1 + (t - 1) = calls + t := by omega
                             rw [this]; exact hc⟩
      have := ih (calls + 1) hrec
      simp only [poll_loop, if_neg hcall]
      exact ⟨by omega, this.2⟩

lemma send_command_timeout_trace (command : List Char) (conn : Nat → Bool)
    (h : ∀ t, conn t = false) :
    send_command conn command =
      Effect.setUsbConfigHid :: List.replicate 500 (Effect.delay 10) := by
  have hp := poll_loop_never conn h 500 0
  have hc : conn 501 = false := h 501
  simp only [send_command, hp, hc, Bool.false_eq_true, if_false, List.append_nil]

/-- C2: encoding scenario.  The input string `"Ab1 -\"\n"` produces exactly:
A-key with shift held, b-key with no shift, 1-key with no shift, spacebar,
minus key, apostrophe key with shift held, return key — each keystroke a
press, the 20ms held-down duration, a release, and the 10ms inter-key delay,
with shift pressed before and released after its key, and the return key
followed by the extra 100ms settle delay.  Any character outside the mapped
set (lowercase, uppercase, digits, space, newline, hyphen, double-quote)
produces no effect at all. -/
theorem send_char_encoding :
    ("Ab1 -\"\n".data.map send_char).flatten =
      [Effect.keyPress HID_KEYBOARD_LEFT_SHIFT,
       Effect.keyPress HID_KEYBOARD_A, Effect.delay 20,
       Effect.keyRelease HID_KEYBOARD_A,
       Effect.keyRelease HID_KEYBOARD_LEFT_SHIFT, Effect.delay 10,
       Effect.keyPress (HID_KEYBOARD_A + 1), Effect.delay 20,
       Effect.keyRelease (HID_KEYBOARD_A + 1), Effect.delay 10,
       Effect.keyPress HID_KEYBOARD_1, Effect.delay 20,
       Effect.keyRelease HID_KEYBOARD_1, Effect.delay 10,
       Effect.keyPress HID_KEYBOARD_SPACEBAR, Effect.delay 20,
       Effect.keyRelease HID_KEYBOARD_SPACEBAR, Effect.delay 10,
       Effect.keyPress HID_KEYBOARD_MINUS, Effect.delay 20,
       Effect.keyRelease HID_KEYBOARD_MINUS, Effect.delay 10,
       Effect.keyPress HID_KEYBOARD_LEFT_SHIFT,
       Effect.keyPress HID_KEYBOARD_APOSTROPHE, Effect.delay 20,
       Effect.keyRelease HID_KEYBOARD_APOSTROPHE,
       Effect.keyRelease HID_KEYBOARD_LEFT_SHIFT, Effect.delay 10,
       Effect.keyPress HID_KEYBOARD_RETURN, Effect.delay 20,
       Effect.keyRelease HID_KEYBOARD_RETURN, Effect.delay 10,
       Effect.delay 100]
    ∧ (∀ c : Char, ¬ mappedChar c → send_char c = []) := by
  constructor
  · decide
  · intro c hc
    simp only [mappedChar, not_or] at hc
    obtain ⟨h1, h2, h3, h4, h5, h6, h7, h8⟩ := hc
    simp only [send_char, if_neg h1, if_neg h2, if_neg h3, if_neg h4, if_neg h5,
      if_neg h6, if_neg h7, if_neg h8]

/-- Witness for `send_char_encoding`: the unmapped character `!` produces no
effect. -/
theorem send_char_encoding_witness : send_char '!' = [] :=
  send_char_encoding.2 '!' (by decide)

/-- C3: timeout and settle behaviour of `send_command`.  If the
host-connected signal is never true, the trace is exactly the HID
configuration call followed by 500 polling delays of 10ms (the 5-second
window): no key event, no settle delay, and no further USB-configuration
effect (the HID interface stays configured).  If connectivity is monotone
(once connected, stays connected) and the host connects within the window,
the trace shows the 500ms settle delay after at most 500 polling delays and
before the first character's keystrokes. -/
theorem send_command_timeout_and_settle (command : List Char) (conn : Nat → Bool) :
    ((∀ t, conn t = false) →
      send_command conn command =
        Effect.setUsbConfigHid :: List.replicate 500 (Effect.delay 10))
    ∧ ((∀ i j, i ≤ j → conn i = true → conn j = true) →
       (∃ t, t ≤ 500 ∧ conn t = true) →
       ∃ k, k ≤ 500 ∧ send_command conn command =
         Effect.setUsbConfigHid ::
           (List.replicate k (Effect.delay 10)
             ++ Effect.delay 500 ::
                  ((command.map send_char).flatten ++ [Effect.setUsbConfigHid]))) := by
  constructor
  · exact send_command_timeout_trace command conn
  · intro mono ⟨t, ht, hc⟩
    have hfind := poll_loop_finds conn mono 500 0 ⟨t, ht, by simpa using hc⟩
    refine ⟨(poll_loop conn 0 500).1, hfind.1, ?_⟩
    simp [send_command, hfind.2]

/-- Witness for `send_command_timeout_and_settle`: with a never-connected
host and the first catalog command, the trace is the configuration call plus
exactly 500 polling delays; with an immediately-connected host, the settle
delay appears. -/
theorem send_command_timeout_and_settle_witness :
    send_command (fun _ => false) "celestecli --tarot\n".data =
      Effect.setUsbConfigHid :: List.replicate 500 (Effect.delay 10)
    ∧ ∃ k, k ≤ 500 ∧ send_command (fun _ => true) ['a'] =
        Effect.setUsbConfigHid ::
          (List.replicate k (Effect.delay 10)
            ++ Effect.delay 500 ::
                 (([('a' : Char)].map send_char).flatten ++ [Effect.setUsbConfigHid])) :=
  ⟨(send_command_timeout_and_settle "celestecli --tarot\n".data (fun _ => false)).1
      (fun _ => rfl),
   (send_command_timeout_and_settle ['a'] (fun _ => true)).2
      (fun _ _ _ h => h) ⟨0, by omega, rfl⟩⟩

/-- C1 (code bug): the "Disable USB HID" line of `send_command` is
`furi_hal_usb_set_config(&usb_hid, NULL)` — the very same HID-selecting call
as the "Enable USB HID" line at entry; the code never captures the
previously active USB configuration and has no call that restores it, and on
the timeout path it returns with no closing USB-configuration call at all.
Concretely: with a connected host the final effect of the trace is again the
HID-configuration selection, and with a never-connected host the trace ends
with the last polling delay. -/
theorem send_command_no_restore :
    send_command (fun _ => true) ['a', '\n'] =
      [Effect.setUsbConfigHid, Effect.delay 500,
       Effect.keyPress HID_KEYBOARD_A, Effect.delay 20,
       Effect.keyRelease HID_KEYBOARD_A, Effect.delay 10,
       Effect.keyPress HID_KEYBOARD_RETURN, Effect.delay 20,
       Effect.keyRelease HID_KEYBOARD_RETURN, Effect.delay 10, Effect.delay 100,
       Effect.setUsbConfigHid]
    ∧ send_command (fun _ => false) ['a', '\n'] =
        Effect.setUsbConfigHid :: List.replicate 500 (Effect.delay 10) := by
  exact ⟨by decide, send_command_timeout_trace ['a', '\n'] (fun _ => false) (fun _ => rfl)⟩

/-!
## Submenu renderer viewport

`render_submenu` computes `visible_start` and then draws the rows
`i = visible_start, visible_start+1, …` while `i < item_count` and
`i - visible_start < 4`, marking row `i` with `>` when `i` equals the
selection.  The model returns the list of `(item index, marked)` rows the
loop draws.  It is parameterised by the catalog list so that the spec's
scrolling scenario (an `item_count` of 10) is statable; the application
instantiates it with `commands`.
-/

/-- The `visible_start` computation of `render_submenu`
(`visible_count = 4`; `if(selected_item >= visible_count)
visible_start = selected_item - visible_count + 1`). -/
def submenu_visible_start (selected : Nat) : Nat :=
  if 4 ≤ selected then selected - 4 + 1 else 0

/-- The row-drawing loop of `render_submenu`.  `remaining` is
`item_count - i`, so the `i < item_count` bound of the C loop is
`remaining ≠ 0`; rows with a `NULL` lookup are skipped (the C loop draws
nothing for them and does not advance `y_offset`). -/
def render_submenu_loop (cmds : List CelesteCommand) (category : MenuCategory)
    (selected visible_start : Nat) : Nat → Nat → List (Nat × Bool)
  | 0, _ => []
  | remaining + 1, i =>
    if i - visible_start < 4 then
      match get_menu_item_list category i 0 cmds with
      | some _ =>
        (i, decide (i = selected)) ::
          render_submenu_loop cmds category selected visible_start remaining (i + 1)
      | none => render_submenu_loop cmds category selected visible_start remaining (i + 1)
    else []

/-- The `(item index, selected-marker)` rows drawn by `render_submenu` for a
catalog, a category and a selection. -/
def render_submenu_rows (cmds : List CelesteCommand) (category : MenuCategory)
    (selected : Nat) : List (Nat × Bool) :=
  let item_count := count_menu_items_list category cmds
  let visible_start := submenu_visible_start selected
  render_submenu_loop cmds category selected visible_start
    (item_count - visible_start) visible_start

/-- A 10-entry single-category catalog used only to state the spec's
scrolling scenario (`itemCount = 10`), which no category of the real catalog
reaches. -/
def demo_catalog_10 : List CelesteCommand :=
  (List.range 10).map (fun i => ⟨"Item", toString i ++ "\n", MenuCategory.tarot⟩)

/-- C7: the viewport start is 0 while the selection is on the first four
rows and `selected - 3` from then on, so the selected row is the last
visible row; in the spec's scenario (10 items, selection 7) the viewport
starts at 4 and the drawn rows are items 4, 5, 6, 7 with row 7 marked
selected. -/
theorem submenu_viewport (selected : Nat) :
    (selected < 4 → submenu_visible_start selected = 0)
    ∧ (4 ≤ selected → submenu_visible_start selected = selected - 3)
    ∧ render_submenu_rows demo_catalog_10 MenuCategory.tarot 7 =
        [(4, false), (5, false), (6, false), (7, true)] := by
  refine ⟨fun h => ?_, fun h => ?_, by decide⟩
  · simp [submenu_visible_start, Nat.not_le.mpr h]
  · simp only [submenu_visible_start, if_pos h]
    omega

/-- Witness for `submenu_viewport` at selections 2 and 7. -/
theorem submenu_viewport_witness :
    submenu_visible_start 2 = 0 ∧ submenu_visible_start 7 = 7 - 3 :=
  ⟨(submenu_viewport 2).1 (by decide), (submenu_viewport 7).2.1 (by decide)⟩

/-!
## UI state machine

`CelesteApp` is the mutable application state (the unused `menu_start` field
and the unused `custom_command` buffer are omitted; `menu_start` is never
read or written and `custom_command` is only zeroed at startup).
`input_callback` is the input handler as a pure state transformer: release
and other non-press event types are ignored, and the OK-at-Confirm branch —
which in C sets `state = AppStateExecuting`, synchronously runs
`send_command` (its effect trace is modelled separately above), waits
1000ms, and then sets `state = AppStateMainMenu` with `selected_item = 0` —
is modelled by its net state effect, since all of that happens within the
single handler invocation.  `loop_tick` is one iteration of the main loop's
splash-timer bookkeeping.  `Reachable` closes the initial state of
`celeste_cli_app` under both.
-/

/-- The Flipper `InputType` values; the handler only acts on `press`. -/
inductive InputType where
  | press
  | release
  | short
  | long
  | rpt
deriving DecidableEq, Repr

/-- The Flipper `InputKey` values used by the handler (`left`/`right` fall to
the `default` branch). -/
inductive InputKey where
  | up
  | down
  | right
  | left
  | ok
  | back
deriving DecidableEq, Repr

structure InputEvent where
  type : InputType
  key : InputKey
deriving DecidableEq, Repr

/-- The `CelesteApp` state struct. -/
structure CelesteApp where
  state : AppState
  selected_item : Nat
  current_category : MenuCategory
  current_command : Option CelesteCommand
  splash_timer : Nat
  running : Bool
deriving DecidableEq, Repr

/-- `input_callback` of `celeste_cli.c` as a pure state transformer.  The C
handler tests `app->state` with if/else chains over the enum; here each
chain is the equivalent `match` on `app.state` (the three category-submenu
screens share one arm, as they share one branch in C). -/
def input_callback (ev : InputEvent) (app : CelesteApp) : CelesteApp :=
  if ev.type = InputType.press then
    match ev.key with
    | InputKey.up =>
      match app.state with
      | AppState.mainMenu =>
        if 0 < app.selected_item then
          { app with selected_item := app.selected_item - 1 }
        else app
      | AppState.tarotMenu | AppState.contentMenu | AppState.nsfwMenu =>
        if 0 < app.selected_item then
          { app with selected_item := app.selected_item - 1 }
        else app
      | _ => app
    | InputKey.down =>
      match app.state with
      | AppState.mainMenu =>
        if app.selected_item < 3 then
          { app with selected_item := app.selected_item + 1 }
        else app
      | AppState.tarotMenu | AppState.contentMenu | AppState.nsfwMenu =>
        if app.selected_item < count_menu_items app.current_category - 1 then
          { app with selected_item := app.selected_item + 1 }
        else app
      | _ => app
    | InputKey.ok =>
      match app.state with
      | AppState.splash =>
        { app with state := AppState.mainMenu, selected_item := 0 }
      | AppState.mainMenu =>
        match app.selected_item with
        | 0 => { app with state := AppState.tarotMenu,
                          current_category := MenuCategory.tarot, selected_item := 0 }
        | 1 => { app with state := AppState.contentMenu,
                          current_category := MenuCategory.content, selected_item := 0 }
        | 2 => { app with state := AppState.nsfwMenu,
                          current_category := MenuCategory.nsfw, selected_item := 0 }
        | _ => app  -- case 3 (Settings placeholder) and the absent default
      | AppState.tarotMenu | AppState.contentMenu | AppState.nsfwMenu =>
        match get_menu_item app.current_category app.selected_item with
        | some cmd => { app with current_command := some cmd,
                                 state := AppState.confirm }
        | none => app
      | AppState.confirm =>
        match app.current_command with
        | some _ =>
          -- state := executing; send_command(...); delay 1000; then:
          { app with state := AppState.mainMenu, selected_item := 0 }
        | none => app
      | _ => app
    | InputKey.back =>
      match app.state with
      | AppState.splash => { app with running := false }
      | AppState.mainMenu => { app with running := false }
      | AppState.tarotMenu | AppState.contentMenu | AppState.nsfwMenu =>
        { app with state := AppState.mainMenu, selected_item := 0 }
      | AppState.confirm =>
        -- state = TarotMenu, overridden for Content/NSFW categories
        { app with state :=
            if app.current_category = MenuCategory.content then AppState.contentMenu
            else if app.current_category = MenuCategory.nsfw then AppState.nsfwMenu
            else AppState.tarotMenu }
      | AppState.executing =>
        { app with state := AppState.mainMenu, selected_item := 0 }
      | _ => app
    | _ => app
  else app

/-- One iteration of the main loop's state mutation (the splash timer and
its 300-tick auto-advance). -/
def loop_tick (app : CelesteApp) : CelesteApp :=
  if app.state = AppState.splash then
    let t := app.splash_timer + 1
    if 300 ≤ t then
      { app with state := AppState.mainMenu, selected_item := 0, splash_timer := t }
    else
      { app with splash_timer := t }
  else app

/-- The initial state set up at the top of `celeste_cli_app`. -/
def init_app : CelesteApp :=
  { state := AppState.splash
    selected_item := 0
    current_category := MenuCategory.main
    current_command := none
    splash_timer := 0
    running := true }

/-- One observable state change: an input event handled by `input_callback`,
or one main-loop iteration. -/
inductive Step : CelesteApp → CelesteApp → Prop where
  | input (ev : InputEvent) (a : CelesteApp) : Step a (input_callback ev a)
  | tick (a : CelesteApp) : Step a (loop_tick a)

/-- States reachable from the initial state of `celeste_cli_app`. -/
def Reachable (a : CelesteApp) : Prop :=
  Relation.ReflTransGen Step init_app a

/-- `s` is one of the three category-submenu screens. -/
def isSubmenu (s : AppState) : Prop :=
  s = AppState.tarotMenu ∨ s = AppState.contentMenu ∨ s = AppState.nsfwMenu

instance (s : AppState) : Decidable (isSubmenu s) := by
  unfold isSubmenu; infer_instance

/-- The state invariant maintained by the handler and the loop:
selection bounds per screen, agreement between submenu screen and
`current_category`, a staged catalog command on the confirm screen, and the
unreachability (as a between-events state) of `executing`/`customInput`. -/
def AppInv (a : CelesteApp) : Prop :=
  (a.state = AppState.mainMenu → a.selected_item < 4)
  ∧ (a.state = AppState.tarotMenu → a.current_category = MenuCategory.tarot)
  ∧ (a.state = AppState.contentMenu → a.current_category = MenuCategory.content)
  ∧ (a.state = AppState.nsfwMenu → a.current_category = MenuCategory.nsfw)
  ∧ ((isSubmenu a.state ∨ a.state = AppState.confirm) →
      a.current_category ≠ MenuCategory.main
      ∧ a.selected_item < count_menu_items a.current_category)
  ∧ (a.state = AppState.confirm → a.current_command ≠ none)
  ∧ a.state ≠ AppState.executing
  ∧ a.state ≠ AppState.customInput
  ∧ (∀ c, a.current_command = some c → c ∈ commands)


lemma count_tarot_eq : count_menu_items MenuCategory.tarot = 5 := rfl

lemma count_content_eq : count_menu_items MenuCategory.content = 4 := rfl

lemma count_nsfw_eq : count_menu_items MenuCategory.nsfw = 3 := rfl

lemma appInv_input (a : CelesteApp) (h : AppInv a) (ev : InputEvent) :
    AppInv (input_callback ev a) := by
  obtain ⟨st, sel, cat, cmd, timer, run⟩ := a
  obtain ⟨ty, key⟩ := ev
  cases ty <;> cases key <;> cases st <;>
    first
      | exact h
      | (unfold AppInv isSubmenu at h ⊢
         obtain ⟨h1, h2, h3, h4, h5, h6, h7, h8, h9⟩ := h
         simp only [input_callback, reduceIte]
         repeat' split
         all_goals simp_all [count_tarot_eq, count_content_eq, count_nsfw_eq]
         all_goals
           first
             | rfl
             | assumption
             | omega
             | decide
             | exact get_menu_item_mem (by assumption)
             | (cases cat <;> simp_all))

lemma appInv_tick (a : CelesteApp) (h : AppInv a) : AppInv (loop_tick a) := by
  obtain ⟨st, sel, cat, cmd, timer, run⟩ := a
  cases st <;>
    first
      | exact h
      | (unfold AppInv isSubmenu at h ⊢
         obtain ⟨h1, h2, h3, h4, h5, h6, h7, h8, h9⟩ := h
         simp only [loop_tick, reduceIte]
         split <;> simp_all)

lemma appInv_init : AppInv init_app := by
  unfold AppInv isSubmenu init_app
  simp

lemma reachable_appInv (a : CelesteApp) (h : Reachable a) : AppInv a := by
  unfold Reachable at h
  induction h with
  | refl => exact appInv_init
  | tail _ hstep ih =>
    cases hstep with
    | input ev => exact appInv_input _ ih ev
    | tick => exact appInv_tick _ ih

/-- C5: in every reachable state, after the input handler runs the selection
cursor is within bounds for the active screen — below 4 on the main menu and
below the category's item count on every category submenu — and, directly:
Up with the cursor at index 0 leaves it at 0, Down at the last main-menu
index (3) leaves it at 3, and Down at the last submenu index
(`itemCount - 1`) leaves it unchanged. -/
theorem selected_item_in_bounds (a : CelesteApp) (h : Reachable a)
    (ev : InputEvent) :
    ((input_callback ev a).state = AppState.mainMenu →
        (input_callback ev a).selected_item < 4)
    ∧ (isSubmenu (input_callback ev a).state →
        (input_callback ev a).selected_item <
          count_menu_items (input_callback ev a).current_category)
    ∧ (a.selected_item = 0 →
        (input_callback ⟨InputType.press, InputKey.up⟩ a).selected_item = 0)
    ∧ (a.state = AppState.mainMenu → a.selected_item = 3 →
        (input_callback ⟨InputType.press, InputKey.down⟩ a).selected_item = 3)
    ∧ (isSubmenu a.state →
        a.selected_item = count_menu_items a.current_category - 1 →
        (input_callback ⟨InputType.press, InputKey.down⟩ a).selected_item =
          a.selected_item) := by
  have hinv := appInv_input a (reachable_appInv a h) ev
  refine ⟨hinv.1, fun hs => (hinv.2.2.2.2.1 (Or.inl hs)).2, ?_, ?_, ?_⟩
  · intro h0
    cases hst : a.state <;> simp [input_callback, hst, h0]
  · intro hst h3
    simp [input_callback, hst, h3]
  · intro hs hlast
    rcases hs with hst | hst | hst <;> simp [input_callback, hst, hlast]

/-- Witness for `selected_item_in_bounds`: at the initial state (selection
0), an Up press leaves the selection at 0. -/
theorem selected_item_in_bounds_witness :
    (input_callback ⟨InputType.press, InputKey.up⟩ init_app).selected_item = 0 :=
  (selected_item_in_bounds init_app Relation.ReflTransGen.refl
    ⟨InputType.press, InputKey.up⟩).2.2.1 rfl

/-- C6: from the main menu, an OK press on selection 0, 1 or 2 enters the
Tarot, Content or NSFW submenu respectively, setting `current_category` and
resetting the selection to 0; an OK press on selection 3 (the Settings
placeholder) leaves the state completely unchanged. -/
theorem mainmenu_confirm_transitions (a : CelesteApp)
    (h : a.state = AppState.mainMenu) :
    (a.selected_item = 0 →
      input_callback ⟨InputType.press, InputKey.ok⟩ a =
        { a with state := AppState.tarotMenu,
                 current_category := MenuCategory.tarot, selected_item := 0 })
    ∧ (a.selected_item = 1 →
      input_callback ⟨InputType.press, InputKey.ok⟩ a =
        { a with state := AppState.contentMenu,
                 current_category := MenuCategory.content, selected_item := 0 })
    ∧ (a.selected_item = 2 →
      input_callback ⟨InputType.press, InputKey.ok⟩ a =
        { a with state := AppState.nsfwMenu,
                 current_category := MenuCategory.nsfw, selected_item := 0 })
    ∧ (a.selected_item = 3 →
      input_callback ⟨InputType.press, InputKey.ok⟩ a = a) := by
  refine ⟨fun hs => ?_, fun hs => ?_, fun hs => ?_, fun hs => ?_⟩ <;>
    simp [input_callback, h, hs]

/-- Witness for `mainmenu_confirm_transitions`: from the main menu with
selection 0, OK enters the Tarot submenu. -/
theorem mainmenu_confirm_transitions_witness :
    input_callback ⟨InputType.press, InputKey.ok⟩
        { init_app with state := AppState.mainMenu } =
      { init_app with state := AppState.tarotMenu,
                      current_category := MenuCategory.tarot,
                      selected_item := 0 } :=
  (mainmenu_confirm_transitions { init_app with state := AppState.mainMenu }
    rfl).1 rfl

/-- C8: entering any submenu from the main menu (OK with selection 0, 1 or
2) and immediately pressing Back lands on the main menu with the selection
reset to 0 — not restored to the prior main-menu position. -/
theorem submenu_back_roundtrip (a : CelesteApp) (h : a.state = AppState.mainMenu)
    (hsel : a.selected_item < 3) :
    (input_callback ⟨InputType.press, InputKey.back⟩
        (input_callback ⟨InputType.press, InputKey.ok⟩ a)).state =
      AppState.mainMenu
    ∧ (input_callback ⟨InputType.press, InputKey.back⟩
        (input_callback ⟨InputType.press, InputKey.ok⟩ a)).selected_item = 0 := by
  have hs : a.selected_item = 0 ∨ a.selected_item = 1 ∨ a.selected_item = 2 := by
    omega
  rcases hs with hs | hs | hs <;> simp [input_callback, h, hs]

/-- Witness for `submenu_back_roundtrip` from the main menu with selection
0 (not 0 after the round trip by coincidence of the prior position: the
reset is to 0 for every entering position 0, 1, 2). -/
theorem submenu_back_roundtrip_witness :
    (input_callback ⟨InputType.press, InputKey.back⟩
        (input_callback ⟨InputType.press, InputKey.ok⟩
          { init_app with state := AppState.mainMenu, selected_item := 2 })).state =
      AppState.mainMenu
    ∧ (input_callback ⟨InputType.press, InputKey.back⟩
        (input_callback ⟨InputType.press, InputKey.ok⟩
          { init_app with state := AppState.mainMenu, selected_item := 2 })).selected_item
      = 0 :=
  submenu_back_roundtrip
    { init_app with state := AppState.mainMenu, selected_item := 2 } rfl
    (by decide)

/-- C9: in every reachable state showing the Confirm screen (and the
Executing screen, which between handler invocations is never the resting
state: it is set and overwritten within a single OK-at-Confirm handler run),
`current_command` is a staged entry of the catalog — never `none` and never
the sentinel, since the embedding's catalog list excludes the sentinel. -/
theorem confirm_has_staged_command (a : CelesteApp) (h : Reachable a)
    (hs : a.state = AppState.confirm ∨ a.state = AppState.executing) :
    ∃ c, a.current_command = some c ∧ c ∈ commands := by
  have hinv := reachable_appInv a h
  rcases hs with hc | he
  · cases hcv : a.current_command with
    | none => exact absurd hcv (hinv.2.2.2.2.2.1 hc)
    | some c => exact ⟨c, rfl, hinv.2.2.2.2.2.2.2.2 c hcv⟩
  · exact absurd he hinv.2.2.2.2.2.2.1

/-- Witness for `confirm_has_staged_command`: the Confirm state reached by
OK (splash) → OK (main menu, selection 0) → OK (Tarot submenu, selection 0)
holds a staged catalog command. -/
theorem confirm_has_staged_command_witness :
    ∃ c, (input_callback ⟨InputType.press, InputKey.ok⟩
           (input_callback ⟨InputType.press, InputKey.ok⟩
             (input_callback ⟨InputType.press, InputKey.ok⟩
               init_app))).current_command = some c ∧ c ∈ commands :=
  confirm_has_staged_command _
    (Relation.ReflTransGen.tail
      (Relation.ReflTransGen.tail
        (Relation.ReflTransGen.tail Relation.ReflTransGen.refl
          (Step.input ⟨InputType.press, InputKey.ok⟩ init_app))
        (Step.input ⟨InputType.press, InputKey.ok⟩ _))
      (Step.input ⟨InputType.press, InputKey.ok⟩ _))
    (Or.inl (by decide))

/-- C10: on the Confirm screen, Back returns to the submenu matching
`current_category` (which on every reachable Confirm screen is one of the
three submenu categories, never Main) and leaves both `selected_item` and
`current_command` untouched, so the cursor stays on the staged item instead
of being reset to 0. -/
theorem confirm_back_returns_to_submenu (a : CelesteApp) (h : Reachable a)
    (hc : a.state = AppState.confirm) :
    (a.current_category = MenuCategory.tarot →
      (input_callback ⟨InputType.press, InputKey.back⟩ a).state =
        AppState.tarotMenu)
    ∧ (a.current_category = MenuCategory.content →
      (input_callback ⟨InputType.press, InputKey.back⟩ a).state =
        AppState.contentMenu)
    ∧ (a.current_category = MenuCategory.nsfw →
      (input_callback ⟨InputType.press, InputKey.back⟩ a).state =
        AppState.nsfwMenu)
    ∧ a.current_category ≠ MenuCategory.main
    ∧ (input_callback ⟨InputType.press, InputKey.back⟩ a).selected_item =
        a.selected_item
    ∧ (input_callback ⟨InputType.press, InputKey.back⟩ a).current_command =
        a.current_command := by
  have hinv := reachable_appInv a h
  refine ⟨fun hcat => by simp [input_callback, hc, hcat],
    fun hcat => by simp [input_callback, hc, hcat],
    fun hcat => by simp [input_callback, hc, hcat],
    (hinv.2.2.2.2.1 (Or.inr hc)).1,
    by simp [input_callback, hc], by simp [input_callback, hc]⟩

/-- Witness for `confirm_back_returns_to_submenu` at the Confirm state
reached through the Tarot submenu: Back lands on the Tarot submenu with the
selection and staged command intact. -/
theorem confirm_back_returns_to_submenu_witness :
    (input_callback ⟨InputType.press, InputKey.back⟩
       (input_callback ⟨InputType.press, InputKey.ok⟩
         (input_callback ⟨InputType.press, InputKey.ok⟩
           (input_callback ⟨InputType.press, InputKey.ok⟩ init_app)))).state =
      AppState.tarotMenu :=
  (confirm_back_returns_to_submenu _
    (Relation.ReflTransGen.tail
      (Relation.ReflTransGen.tail
        (Relation.ReflTransGen.tail Relation.ReflTransGen.refl
          (Step.input ⟨InputType.press, InputKey.ok⟩ init_app))
        (Step.input ⟨InputType.press, InputKey.ok⟩ _))
      (Step.input ⟨InputType.press, InputKey.ok⟩ _))
    (by decide)).1 (by decide)
